import Mathlib

/-!
Verification development for the Pong Arena repository.

The shared deterministic physics kernel (`src/public/js/pong-sim.js`) is
embedded as pure functions over `SimState`, with all position/velocity
arithmetic carried out over `ℚ` (JavaScript doubles are rational values;
the kernel performs only field arithmetic except for the `Math.sqrt` /
`Math.ceil` pair that picks the sub-step count, which is embedded exactly
via `subStepCount` and proved equal to the source formula below).

The PongSim-based server engine (`PongEngine` delegating to PongSim) is
embedded as `engineTick`, the legacy server engine's inlined ball physics
(`src/game/PongEngine.js`) as `legacyBallStep`, the session input handler
with its sliding-window rate limit as `Session.handleInput`, and the
disconnect / grace-period / forfeit logic of the socket layer as operations
on `GameWorld`.
-/

namespace PongSim

/-- CANVAS_W from pong-sim.js. -/
def CANVAS_W : ℚ := 800
/-- CANVAS_H from pong-sim.js. -/
def CANVAS_H : ℚ := 600
/-- PADDLE_W from pong-sim.js. -/
def PADDLE_W : ℚ := 26
/-- PADDLE_H from pong-sim.js. -/
def PADDLE_H : ℚ := 110
/-- PADDLE_SPEED from pong-sim.js. -/
def PADDLE_SPEED : ℚ := 6
/-- BALL_SIZE from pong-sim.js. -/
def BALL_SIZE : ℚ := 16
/-- BALL_SPEED_INITIAL from pong-sim.js (the kernel value, 4). -/
def BALL_SPEED_INITIAL : ℚ := 4
/-- BALL_SPEED_INCREMENT from pong-sim.js. -/
def BALL_SPEED_INCREMENT : ℚ := 1/4
/-- BALL_MAX_SPEED from pong-sim.js. -/
def BALL_MAX_SPEED : ℚ := 14
/-- WIN_SCORE from pong-sim.js. -/
def WIN_SCORE : ℕ := 5
/-- SCORE_PAUSE_TICKS from pong-sim.js (the kernel value, 120). -/
def SCORE_PAUSE_TICKS : ℤ := 120
/-- P1_X from pong-sim.js. -/
def P1_X : ℚ := 10
/-- P1_RIGHT from pong-sim.js. -/
def P1_RIGHT : ℚ := P1_X + PADDLE_W
/-- P2_LEFT from pong-sim.js. -/
def P2_LEFT : ℚ := CANVAS_W - 10 - PADDLE_W
/-- P2_RIGHT from pong-sim.js. -/
def P2_RIGHT : ℚ := CANVAS_W - 10

/-- Ball sub-record of the simulation state. -/
structure Ball where
  x : ℚ
  y : ℚ
  vx : ℚ
  vy : ℚ
  deriving DecidableEq, Repr

/-- Match status (the `status` string field takes only these two values). -/
inductive Status where
  | playing
  | finished
  deriving DecidableEq, Repr

/-- Transient sound tag emitted by the kernel. -/
inductive Sound where
  | wall
  | paddle
  | score
  deriving DecidableEq, Repr

/-- The SimulationState value of pong-sim.js.  Paddles are their single `y`
offset; `pauseTicks` is an integer countdown; `winner` is the player slot. -/
structure SimState where
  ball : Ball
  paddle1 : ℚ
  paddle2 : ℚ
  score1 : ℕ
  score2 : ℕ
  status : Status
  winner : Option ℕ
  paused : Bool
  pauseTicks : ℤ
  sound : Option Sound
  deriving DecidableEq, Repr

/-- createState from pong-sim.js: centered ball at rest, centered paddles,
zero score, playing, not paused. -/
def createState : SimState where
  ball := ⟨CANVAS_W / 2 - BALL_SIZE / 2, CANVAS_H / 2 - BALL_SIZE / 2, 0, 0⟩
  paddle1 := CANVAS_H / 2 - PADDLE_H / 2
  paddle2 := CANVAS_H / 2 - PADDLE_H / 2
  score1 := 0
  score2 := 0
  status := .playing
  winner := none
  paused := false
  pauseTicks := 0
  sound := none

/-- Paddle movement applied by `applyInput` to one paddle offset: `up` moves
up clamped at 0, `down` moves down clamped at `CANVAS_H - PADDLE_H`, any
other direction string is a no-op. -/
def movePaddle (y : ℚ) (direction : String) : ℚ :=
  if direction = "up" then max 0 (y - PADDLE_SPEED)
  else if direction = "down" then min (CANVAS_H - PADDLE_H) (y + PADDLE_SPEED)
  else y

/-- applyInput from pong-sim.js.  As in the source, player index 1 selects
paddle 1 and any other index selects paddle 2. -/
def applyInput (s : SimState) (playerIndex : ℕ) (direction : String) : SimState :=
  if playerIndex = 1 then { s with paddle1 := movePaddle s.paddle1 direction }
  else { s with paddle2 := movePaddle s.paddle2 direction }

/-- Least natural number `n` with `C ≤ n ^ 2`, computed with `Nat.sqrt`.
This is the integer form of `Math.ceil` applied to a square root. -/
def ceilSqrtNat (C : ℕ) : ℕ :=
  if C = 0 then 0 else Nat.sqrt (C - 1) + 1

/-- Sub-step count of stepBall:
`Math.max(1, Math.ceil(Math.sqrt(vx*vx + vy*vy) / (PADDLE_W / 2)))`.
Since `PADDLE_W / 2 = 13`, `ceil(sqrt s2 / 13)` is the least `n` with
`s2 ≤ 169 * n ^ 2`, which is computed exactly over `ℚ` here; theorem
`subStepCount_eq_ceil` below proves it equal to the source formula. -/
def subStepCount (vx vy : ℚ) : ℕ :=
  max 1 (ceilSqrtNat ⌈(vx ^ 2 + vy ^ 2) / 169⌉₊)

/-- Outcome of one sub-step of `stepBall`: keep looping, break out of the
loop (paddle hit), or return immediately (a player scored). -/
inductive SubOut where
  | cont
  | brk
  | goal (n : ℕ)
  deriving DecidableEq, Repr

/-- Movement phase of one sub-step: advance the ball by the fixed
per-sub-step velocity. -/
def moveStep (sVx sVy : ℚ) (b : Ball) : Ball :=
  { b with x := b.x + sVx, y := b.y + sVy }

/-- Wall phase of one sub-step: the two sequential wall tests of
pong-sim.js, each reflecting `vy` and reflecting the overshoot distance
back in, and overwriting the sound accumulator with `wall`. -/
def wallPhase (snd : Option Sound) (b : Ball) : Ball × Option Sound :=
  let w1 : Ball × Option Sound :=
    if b.y ≤ 0 then ({ b with vy := |b.vy|, y := -b.y }, some .wall) else (b, snd)
  if w1.1.y ≥ CANVAS_H - BALL_SIZE then
    ({ w1.1 with vy := -|w1.1.vy|, y := 2 * (CANVAS_H - BALL_SIZE) - w1.1.y }, some .wall)
  else w1

/-- Collision-and-goal phase of one sub-step, on the moved and
wall-reflected ball `b2` with the pre-move position `(oldX, oldY)`: the
left paddle's swept test and plain-overlap fallback, the right paddle's
swept test and plain-overlap fallback (any hit repositions the ball,
raises the speed capped at `BALL_MAX_SPEED`, reverses the horizontal
direction, sets `vy` from the hit offset, and breaks), then the goal-line
tests (a score returns immediately). -/
def collidePhase (p1 p2 oldX oldY : ℚ) (b2 : Ball) (snd2 : Option Sound) :
    Ball × Option Sound × SubOut :=
  let spd := min (|b2.vx| + BALL_SPEED_INCREMENT) BALL_MAX_SPEED
  let tL := (oldX - P1_RIGHT) / (oldX - b2.x)
  let hitYL := oldY + (b2.y - oldY) * tL
  let tR := (P2_LEFT - (oldX + BALL_SIZE)) / ((b2.x + BALL_SIZE) - (oldX + BALL_SIZE))
  let hitYR := oldY + (b2.y - oldY) * tR
  if b2.vx < 0 ∧ oldX ≥ P1_RIGHT ∧ b2.x < P1_RIGHT ∧
     hitYL + BALL_SIZE ≥ p1 ∧ hitYL ≤ p1 + PADDLE_H then
    (⟨P1_RIGHT, hitYL, spd,
      ((hitYL + BALL_SIZE / 2 - p1) / PADDLE_H - 1/2) * spd * 1.5⟩, some .paddle, .brk)
  else if b2.vx < 0 ∧ b2.x < P1_RIGHT ∧ b2.x + BALL_SIZE > P1_X ∧
          b2.y + BALL_SIZE > p1 ∧ b2.y < p1 + PADDLE_H then
    (⟨P1_RIGHT, b2.y, spd,
      ((b2.y + BALL_SIZE / 2 - p1) / PADDLE_H - 1/2) * spd * 1.5⟩, some .paddle, .brk)
  else if b2.vx > 0 ∧ oldX + BALL_SIZE ≤ P2_LEFT ∧ b2.x + BALL_SIZE > P2_LEFT ∧
          hitYR + BALL_SIZE ≥ p2 ∧ hitYR ≤ p2 + PADDLE_H then
    (⟨P2_LEFT - BALL_SIZE, hitYR, -spd,
      ((hitYR + BALL_SIZE / 2 - p2) / PADDLE_H - 1/2) * spd * 1.5⟩, some .paddle, .brk)
  else if b2.vx > 0 ∧ b2.x + BALL_SIZE > P2_LEFT ∧ b2.x < P2_RIGHT ∧
          b2.y + BALL_SIZE > p2 ∧ b2.y < p2 + PADDLE_H then
    (⟨P2_LEFT - BALL_SIZE, b2.y, -spd,
      ((b2.y + BALL_SIZE / 2 - p2) / PADDLE_H - 1/2) * spd * 1.5⟩, some .paddle, .brk)
  else if b2.x + BALL_SIZE < 0 then (b2, some .score, .goal 2)
  else if b2.x > CANVAS_W then (b2, some .score, .goal 1)
  else (b2, snd2, .cont)

/-- One sub-step of the stepBall loop: move by the fixed per-sub-step
velocity, bounce on the top and bottom walls (reflecting the overshoot),
run the swept and fallback paddle tests for the left then the right paddle
(a hit breaks the loop), then the goal-line tests (a score returns
immediately).  `snd` is the `result.sound` accumulator, overwritten exactly
as in the source.  The source's per-paddle `if` nesting (swept test first
with the plain-overlap fallback running whenever the swept test did not
hit, and a `break` on any hit) is rendered as one flat `if`-chain with the
same branch semantics, factored into the three phases below. -/
def subStep (p1 p2 sVx sVy : ℚ) (b : Ball) (snd : Option Sound) :
    Ball × Option Sound × SubOut :=
  let w := wallPhase snd (moveStep sVx sVy b)
  collidePhase p1 p2 b.x b.y w.1 w.2

/-- The sub-step loop of stepBall: run up to `n` sub-steps, stopping early
on a paddle hit (`brk`) or a score (`goal`). -/
def stepLoop (p1 p2 sVx sVy : ℚ) : ℕ → Ball → Option Sound →
    Ball × Option Sound × Option ℕ
  | 0, b, snd => (b, snd, none)
  | n + 1, b, snd =>
    match subStep p1 p2 sVx sVy b snd with
    | (b', snd', .cont) => stepLoop p1 p2 sVx sVy n b' snd'
    | (b', snd', .brk) => (b', snd', none)
    | (b', snd', .goal k) => (b', snd', some k)

/-- Result record returned by stepBall: `{ scored, sound }`. -/
structure StepRes where
  scored : Option ℕ
  sound : Option Sound
  deriving DecidableEq, Repr

/-- stepBall from pong-sim.js: one tick of ball motion, decomposed into
`subStepCount` sub-steps of the per-sub-step velocity `(vx/n, vy/n)`
fixed before the loop, with swept paddle collision and goal detection. -/
def stepBall (s : SimState) : SimState × StepRes :=
  let n := subStepCount s.ball.vx s.ball.vy
  let sVx := s.ball.vx / n
  let sVy := s.ball.vy / n
  let r := stepLoop s.paddle1 s.paddle2 sVx sVy n s.ball none
  ({ s with ball := r.1 }, ⟨r.2.2, r.2.1⟩)

/-- launchBall from pong-sim.js.  The source computes
`vx = Math.cos(angle) * BALL_SPEED_INITIAL * direction` and
`vy = Math.sin(angle) * BALL_SPEED_INITIAL`; the cosine and sine values
(doubles, hence rationals, with magnitude at most 1) are taken as the
parameters `c` and `sn` injected by the caller. -/
def launchBall (s : SimState) (c sn dir : ℚ) : SimState :=
  { s with ball := { s.ball with vx := c * BALL_SPEED_INITIAL * dir,
                                 vy := sn * BALL_SPEED_INITIAL } }

/-- resetBallAfterScore from pong-sim.js: recenter the ball at rest, arm the
pause countdown, set `paused`. -/
def resetBallAfterScore (s : SimState) : SimState :=
  { s with ball := ⟨CANVAS_W / 2 - BALL_SIZE / 2, CANVAS_H / 2 - BALL_SIZE / 2, 0, 0⟩,
           pauseTicks := SCORE_PAUSE_TICKS,
           paused := true }

/-- tickPause from pong-sim.js: returns the updated state and the boolean
result (true exactly on the call where the countdown reaches zero, which
also clears `paused`). -/
def tickPause (s : SimState) : SimState × Bool :=
  if s.pauseTicks ≤ 0 then (s, false)
  else
    let pt := s.pauseTicks - 1
    if pt = 0 then ({ s with pauseTicks := 0, paused := false }, true)
    else ({ s with pauseTicks := pt }, false)

/-- Kernel operation, for stating determinism of a whole run: each
constructor is one call of a kernel function with its arguments. -/
inductive KCmd where
  | input (playerIndex : ℕ) (direction : String)
  | step
  | launch (c sn dir : ℚ)
  | pause
  | reset
  deriving DecidableEq, Repr

/-- Apply one kernel operation to a state (the state part of each call). -/
def applyKCmd (s : SimState) : KCmd → SimState
  | .input i d => applyInput s i d
  | .step => (stepBall s).1
  | .launch c sn dir => launchBall s c sn dir
  | .pause => (tickPause s).1
  | .reset => resetBallAfterScore s

/-- Run a sequence of kernel operations from a starting state. -/
def runKernel : List KCmd → SimState → SimState
  | [], s => s
  | c :: cs, s => runKernel cs (applyKCmd s c)

/-- Apply a list of `applyInput` calls (player slot, direction string). -/
def runInputs : List (ℕ × String) → SimState → SimState
  | [], s => s
  | (i, d) :: l, s => runInputs l (applyInput s i d)

/-- Iterate the state part of `tickPause`. -/
def iterPause : ℕ → SimState → SimState
  | 0, s => s
  | k + 1, s => iterPause k (tickPause s).1

/-- States reachable through the kernel operations as the PongSim-based
engine's tick loop drives them: `stepBall` only runs when the pause
countdown is not positive, `tickPause` only runs when it is positive, and
`launchBall` only runs while not paused (at game start and right after
`tickPause` signals the end of a pause). -/
inductive KReach : SimState → Prop
  | init : KReach createState
  | input (s : SimState) (i : ℕ) (d : String) :
      KReach s → KReach (applyInput s i d)
  | step (s : SimState) : KReach s → s.pauseTicks ≤ 0 → KReach (stepBall s).1
  | launch (s : SimState) (c sn dir : ℚ) :
      KReach s → s.paused = false → KReach (launchBall s c sn dir)
  | pauseTick (s : SimState) : KReach s → 0 < s.pauseTicks → KReach (tickPause s).1
  | reset (s : SimState) : KReach s → KReach (resetBallAfterScore s)

/-- Pause invariant: while paused, the ball is exactly centered at rest and
the countdown is still running; while not paused, the countdown is zero. -/
def PauseInv (s : SimState) : Prop :=
  (s.paused = true → s.ball.vx = 0 ∧ s.ball.vy = 0 ∧
    s.ball.x = CANVAS_W / 2 - BALL_SIZE / 2 ∧
    s.ball.y = CANVAS_H / 2 - BALL_SIZE / 2 ∧ 0 < s.pauseTicks) ∧
  (s.paused = false → s.pauseTicks = 0)

end PongSim

namespace PongEngine

open PongSim

/-- The `endGame` effect on the simulation state in the PongSim-based
engine: status becomes finished and the given player slot is recorded as
winner (the interval timer is also cleared; that side effect lives outside
the simulation state). -/
def endGame (s : SimState) (w : ℕ) : SimState :=
  { s with status := .finished, winner := some w }

/-- One tick of the PongSim-based server engine (the `tick` method of the
PongEngine that delegates to PongSim): no-op unless playing, clear the
sound tag, apply both players' stored directions, then either run the
pause countdown (relaunching with the injected parameters `c`, `sn`, `dir`
when it ends) or step the ball and handle scoring and win detection. -/
def engineTick (d1 d2 : String) (c sn dir : ℚ) (s : SimState) : SimState :=
  if s.status ≠ .playing then s
  else
    let s := { s with sound := none }
    let s := applyInput (applyInput s 1 d1) 2 d2
    if 0 < s.pauseTicks then
      let r := tickPause s
      if r.2 then launchBall r.1 c sn dir else r.1
    else
      let r := stepBall s
      let s' := match r.2.sound with
        | some snd => { r.1 with sound := some snd }
        | none => r.1
      match r.2.scored with
      | some k =>
        if k = 2 then
          let s2 := { s' with score2 := s'.score2 + 1, sound := some .score }
          if WIN_SCORE ≤ s2.score2 then endGame s2 2 else resetBallAfterScore s2
        else
          let s2 := { s' with score1 := s'.score1 + 1, sound := some .score }
          if WIN_SCORE ≤ s2.score1 then endGame s2 1 else resetBallAfterScore s2
      | none => s'

end PongEngine

namespace Legacy

open PongSim

/-- BALL_SPEED_INITIAL of the legacy server engine (6, not the kernel's 4). -/
def LEGACY_BALL_SPEED_INITIAL : ℚ := 6

/-- SCORE_PAUSE_TICKS of the legacy server engine (90, not the kernel's 120). -/
def LEGACY_SCORE_PAUSE_TICKS : ℤ := 90

/-- Wall phase of the legacy engine's tick: the two sequential wall tests,
each reflecting `vy` but CLAMPING the position to the wall (`y = 0` /
`y = CANVAS_H - BALL_SIZE`) instead of reflecting the overshoot. -/
def legacyWallPhase (snd : Option Sound) (b : Ball) : Ball × Option Sound :=
  let w1 : Ball × Option Sound :=
    if b.y ≤ 0 then ({ b with vy := |b.vy|, y := 0 }, some .wall) else (b, snd)
  if w1.1.y ≥ CANVAS_H - BALL_SIZE then
    ({ w1.1 with vy := -|w1.1.vy|, y := CANVAS_H - BALL_SIZE }, some .wall)
  else w1

/-- Left paddle section of the legacy engine's tick: an `if / else if`
swept-then-overlap test (the overlap fallback does NOT run when the swept
crossing condition held but the span test failed), with the swept
interpolation computed as `oldY + ball.vy * t` from the current `vy`. -/
def legacyLeft (p1 ox oy : ℚ) (b : Ball) (snd : Option Sound) :
    Ball × Option Sound :=
  if b.vx < 0 then
    if b.x ≤ P1_RIGHT ∧ ox ≥ P1_RIGHT then
      let t := (ox - P1_RIGHT) / (ox - b.x)
      let hitY := oy + b.vy * t
      if hitY + BALL_SIZE ≥ p1 ∧ hitY ≤ p1 + PADDLE_H then
        let spd := min (|b.vx| + BALL_SPEED_INCREMENT) BALL_MAX_SPEED
        (⟨P1_RIGHT, hitY, spd,
          ((hitY + BALL_SIZE / 2 - p1) / PADDLE_H - 1/2) * spd * 1.5⟩, some .paddle)
      else (b, snd)
    else if b.x ≤ P1_RIGHT ∧ b.x + BALL_SIZE ≥ P1_X ∧
            b.y + BALL_SIZE ≥ p1 ∧ b.y ≤ p1 + PADDLE_H then
      let spd := min (|b.vx| + BALL_SPEED_INCREMENT) BALL_MAX_SPEED
      (⟨P1_RIGHT, b.y, spd,
        ((b.y + BALL_SIZE / 2 - p1) / PADDLE_H - 1/2) * spd * 1.5⟩, some .paddle)
    else (b, snd)
  else (b, snd)

/-- Right paddle section of the legacy engine's tick, mirroring
`legacyLeft` with non-strict crossing comparisons as in the source. -/
def legacyRight (p2 ox oy : ℚ) (b : Ball) (snd : Option Sound) :
    Ball × Option Sound :=
  if b.vx > 0 then
    let oldRight := ox + BALL_SIZE
    let newRight := b.x + BALL_SIZE
    if newRight ≥ P2_LEFT ∧ oldRight ≤ P2_LEFT then
      let t := (P2_LEFT - oldRight) / (newRight - oldRight)
      let hitY := oy + b.vy * t
      if hitY + BALL_SIZE ≥ p2 ∧ hitY ≤ p2 + PADDLE_H then
        let spd := min (|b.vx| + BALL_SPEED_INCREMENT) BALL_MAX_SPEED
        (⟨P2_LEFT - BALL_SIZE, hitY, -spd,
          ((hitY + BALL_SIZE / 2 - p2) / PADDLE_H - 1/2) * spd * 1.5⟩, some .paddle)
      else (b, snd)
    else if b.x + BALL_SIZE ≥ P2_LEFT ∧ b.x ≤ CANVAS_W - 10 ∧
            b.y + BALL_SIZE ≥ p2 ∧ b.y ≤ p2 + PADDLE_H then
      let spd := min (|b.vx| + BALL_SPEED_INCREMENT) BALL_MAX_SPEED
      (⟨P2_LEFT - BALL_SIZE, b.y, -spd,
        ((b.y + BALL_SIZE / 2 - p2) / PADDLE_H - 1/2) * spd * 1.5⟩, some .paddle)
    else (b, snd)
  else (b, snd)

/-- Goal-line phase of the legacy engine's tick. -/
def legacyGoal (b : Ball) (snd : Option Sound) : Ball × Option ℕ × Option Sound :=
  if b.x + BALL_SIZE < 0 then (b, some 2, some .score)
  else if b.x > CANVAS_W then (b, some 1, some .score)
  else (b, none, snd)

/-- The ball-update portion of the legacy server engine's `tick`
(`src/game/PongEngine.js`): a single full-velocity move (no sub-stepping)
with wall clamping, the `if / else if` swept-then-overlap paddle test per
side, and the goal-line tests.  Returns the updated ball, the scorer (if
any) and the sound tag. -/
def legacyBallStep (p1 p2 : ℚ) (b : Ball) : Ball × Option ℕ × Option Sound :=
  let w := legacyWallPhase none { b with x := b.x + b.vx, y := b.y + b.vy }
  let l := legacyLeft p1 b.x b.y w.1 w.2
  let r := legacyRight p2 b.x b.y l.1 l.2
  legacyGoal r.1 r.2

end Legacy

namespace Session

open PongSim

/-- INPUT_RATE_LIMIT of the PongSim-based engine: max direction changes per
second per player. -/
def INPUT_RATE_LIMIT : ℕ := 30

/-- Match-session state relevant to `handleInput`: the two player wallets,
the stored per-player intended directions, the per-player sliding-window
timestamp lists, and the simulation state (to express that input handling
never touches it). -/
structure Sess where
  w1 : String
  w2 : String
  in1 : String
  in2 : String
  ts1 : List ℤ
  ts2 : List ℤ
  sim : SimState
  deriving DecidableEq, Repr

/-- The `while` loop of `handleInput` that shifts timestamps older than one
second off the front of the window. -/
def pruneOld (now : ℤ) : List ℤ → List ℤ
  | [] => []
  | t :: ts => if now - t > 1000 then pruneOld now ts else t :: ts

/-- handleInput of the PongSim-based engine: reject callers who are not one
of the two players, reject directions outside `up`/`down`/`stop`, prune the
caller's timestamp window and drop the input when the window is full,
otherwise record the timestamp and store the direction for the next tick. -/
def handleInput (g : Sess) (wallet direction : String) (now : ℤ) : Sess :=
  if wallet ≠ g.w1 ∧ wallet ≠ g.w2 then g
  else if direction ≠ "up" ∧ direction ≠ "down" ∧ direction ≠ "stop" then g
  else if wallet = g.w1 then
    let ts := pruneOld now g.ts1
    if INPUT_RATE_LIMIT ≤ ts.length then { g with ts1 := ts }
    else { g with ts1 := ts ++ [now], in1 := direction }
  else
    let ts := pruneOld now g.ts2
    if INPUT_RATE_LIMIT ≤ ts.length then { g with ts2 := ts }
    else { g with ts2 := ts ++ [now], in2 := direction }

end Session

namespace Grace

open PongSim

/-- World state for the disconnect / grace-period / forfeit logic: whether
the game is still in the active-games registry, the per-player disconnect
flags maintained by `setDisconnect` / `clearDisconnect`, whether the tick
interval is armed, and the outcome fields of the simulation state. -/
structure GameWorld where
  active : Bool
  disc1 : Bool
  disc2 : Bool
  timerOn : Bool
  status : Status
  winner : Option ℕ
  score1 : ℕ
  score2 : ℕ
  deriving DecidableEq, Repr

/-- isDisconnected for player slot `p` (slot 1 or any other slot = 2,
mirroring the two-element wallet set). -/
def disc (w : GameWorld) (p : ℕ) : Bool :=
  if p = 1 then w.disc1 else w.disc2

/-- setDisconnect, as run by the socket disconnect handler. -/
def setDisconnect (w : GameWorld) (p : ℕ) : GameWorld :=
  if p = 1 then { w with disc1 := true } else { w with disc2 := true }

/-- clearDisconnect, as run by the reconnect (`register`) handler. -/
def clearDisconnect (w : GameWorld) (p : ℕ) : GameWorld :=
  if p = 1 then { w with disc1 := false } else { w with disc2 := false }

/-- The other player slot. -/
def other (p : ℕ) : ℕ := if p = 1 then 2 else 1

/-- forfeit(disconnectedWallet) followed by the `endGame` state changes: the
tick interval is cleared and the opponent is declared winner with the score
left untouched. -/
def forfeit (w : GameWorld) (p : ℕ) : GameWorld :=
  { w with timerOn := false, status := .finished, winner := some (other p) }

/-- The scheduled grace-period callback armed on disconnect: at fire time it
checks that the game is still registered and that the player is still
flagged disconnected, and only then forfeits and deregisters the game;
otherwise it does nothing. -/
def graceFire (w : GameWorld) (p : ℕ) : GameWorld :=
  if w.active = true ∧ disc w p = true then { forfeit w p with active := false }
  else w

end Grace

namespace PongSim

/-- `ceilSqrtNat C` is the least `n` with `C ≤ n ^ 2`. -/
theorem ceilSqrtNat_le_iff (C n : ℕ) : ceilSqrtNat C ≤ n ↔ C ≤ n ^ 2 := by
  unfold ceilSqrtNat
  split_ifs with h
  · simp [h]
  · rw [Nat.add_one_le_iff, Nat.sqrt_lt']
    generalize n ^ 2 = m
    omega

/-- The sub-step count is positive. -/
theorem subStepCount_pos (vx vy : ℚ) : 0 < subStepCount vx vy :=
  lt_of_lt_of_le one_pos (le_max_left _ _)

/-- The squared speed is at most `169` times the square of the sub-step
count. -/
theorem sq_le_169_mul_subStepCount (vx vy : ℚ) :
    vx ^ 2 + vy ^ 2 ≤ 169 * (subStepCount vx vy : ℚ) ^ 2 := by
  have hm : ceilSqrtNat ⌈(vx ^ 2 + vy ^ 2) / 169⌉₊ ≤ subStepCount vx vy :=
    le_max_right _ _
  have hC : ⌈(vx ^ 2 + vy ^ 2) / 169⌉₊ ≤ (subStepCount vx vy) ^ 2 :=
    (ceilSqrtNat_le_iff _ _).1 hm
  have h1 : (vx ^ 2 + vy ^ 2) / 169 ≤ ((subStepCount vx vy : ℚ)) ^ 2 := by
    calc (vx ^ 2 + vy ^ 2) / 169 ≤ (⌈(vx ^ 2 + vy ^ 2) / 169⌉₊ : ℚ) := Nat.le_ceil _
    _ ≤ ((subStepCount vx vy : ℚ)) ^ 2 := by exact_mod_cast Nat.cast_le.2 hC
  calc vx ^ 2 + vy ^ 2 = ((vx ^ 2 + vy ^ 2) / 169) * 169 := by ring
  _ ≤ ((subStepCount vx vy : ℚ)) ^ 2 * 169 :=
      mul_le_mul_of_nonneg_right h1 (by norm_num)
  _ = 169 * (subStepCount vx vy : ℚ) ^ 2 := by ring

/-- `ceilSqrtNat ⌈q / 169⌉₊` computes `⌈√q / 13⌉₊`. -/
theorem ceilSqrtNat_eq_ceil_sqrt (q : ℚ) :
    ceilSqrtNat ⌈q / 169⌉₊ = ⌈Real.sqrt (q : ℝ) / 13⌉₊ := by
  have key : ∀ n : ℕ, ceilSqrtNat ⌈q / 169⌉₊ ≤ n ↔ ⌈Real.sqrt (q : ℝ) / 13⌉₊ ≤ n := by
    intro n
    rw [ceilSqrtNat_le_iff, Nat.ceil_le, Nat.ceil_le]
    have hQ : q / 169 ≤ ((n ^ 2 : ℕ) : ℚ) ↔ q ≤ 169 * (n : ℚ) ^ 2 := by
      rw [div_le_iff₀ (by norm_num : (0:ℚ) < 169)]
      push_cast
      constructor <;> intro h <;> linarith
    have hR : Real.sqrt (q : ℝ) / 13 ≤ (n : ℝ) ↔ (q : ℝ) ≤ 169 * (n : ℝ) ^ 2 := by
      rw [div_le_iff₀ (by norm_num : (0:ℝ) < 13),
          Real.sqrt_le_left (by positivity : (0:ℝ) ≤ (n : ℝ) * 13)]
      constructor <;> intro h <;> nlinarith
    rw [hQ, hR]
    constructor <;> intro h <;> exact_mod_cast h
  exact le_antisymm ((key _).2 le_rfl) ((key _).1 le_rfl)

/-- The per-sub-step squared displacement is at most `169` over `ℚ`. -/
theorem subStep_disp_sq_le (vx vy : ℚ) :
    (vx / (subStepCount vx vy : ℚ)) ^ 2 + (vy / (subStepCount vx vy : ℚ)) ^ 2 ≤ 169 := by
  have hN : (0:ℚ) < (subStepCount vx vy : ℚ) := by
    exact_mod_cast subStepCount_pos vx vy
  have h := sq_le_169_mul_subStepCount vx vy
  rw [div_pow, div_pow, div_add_div_same, div_le_iff₀ (by positivity)]
  linarith

/-- When the squared speed is at most `169`, the tick is a single sub-step. -/
theorem subStepCount_eq_one {vx vy : ℚ} (h : vx ^ 2 + vy ^ 2 ≤ 169) :
    subStepCount vx vy = 1 := by
  have hC : ⌈(vx ^ 2 + vy ^ 2) / 169⌉₊ ≤ 1 := by
    rw [Nat.ceil_le, div_le_iff₀ (by norm_num : (0:ℚ) < 169)]
    push_cast
    linarith
  have hm : ceilSqrtNat ⌈(vx ^ 2 + vy ^ 2) / 169⌉₊ ≤ 1 :=
    (ceilSqrtNat_le_iff _ _).2 (by simpa using hC)
  simp only [subStepCount]
  omega

/-- Unfolding equation for the empty sub-step loop. -/
theorem stepLoop_zero (p1 p2 a c : ℚ) (b : Ball) (snd : Option Sound) :
    stepLoop p1 p2 a c 0 b snd = (b, snd, none) := rfl

/-- Unfolding equation for one iteration of the sub-step loop. -/
theorem stepLoop_succ (p1 p2 a c : ℚ) (n : ℕ) (b : Ball) (snd : Option Sound) :
    stepLoop p1 p2 a c (n + 1) b snd =
      match subStep p1 p2 a c b snd with
      | (b', snd', .cont) => stepLoop p1 p2 a c n b' snd'
      | (b', snd', .brk) => (b', snd', none)
      | (b', snd', .goal k) => (b', snd', some k) := rfl

/-- stepBall only rewrites the ball; every other field is preserved. -/
theorem stepBall_preserves (s : SimState) :
    (stepBall s).1.paddle1 = s.paddle1 ∧ (stepBall s).1.paddle2 = s.paddle2 ∧
    (stepBall s).1.score1 = s.score1 ∧ (stepBall s).1.score2 = s.score2 ∧
    (stepBall s).1.status = s.status ∧ (stepBall s).1.winner = s.winner ∧
    (stepBall s).1.paused = s.paused ∧ (stepBall s).1.pauseTicks = s.pauseTicks ∧
    (stepBall s).1.sound = s.sound := by
  simp [stepBall]

/-- applyInput only rewrites a paddle; every other field is preserved. -/
theorem applyInput_preserves (s : SimState) (i : ℕ) (d : String) :
    (applyInput s i d).ball = s.ball ∧
    (applyInput s i d).score1 = s.score1 ∧ (applyInput s i d).score2 = s.score2 ∧
    (applyInput s i d).status = s.status ∧ (applyInput s i d).winner = s.winner ∧
    (applyInput s i d).paused = s.paused ∧
    (applyInput s i d).pauseTicks = s.pauseTicks ∧
    (applyInput s i d).sound = s.sound := by
  unfold applyInput
  split_ifs <;> simp

/-- The scorer reported by the collision phase is always slot 1 or 2. -/
theorem collidePhase_goal_cases (p1 p2 ox oy : ℚ) (b2 : Ball) (snd2 : Option Sound)
    (k : ℕ) : (collidePhase p1 p2 ox oy b2 snd2).2.2 = .goal k → k = 1 ∨ k = 2 := by
  simp only [collidePhase]
  split_ifs <;> intro h <;> simp_all

/-- The scorer reported by one sub-step is always slot 1 or slot 2. -/
theorem subStep_goal_cases (p1 p2 a c : ℚ) (b : Ball) (snd : Option Sound) (k : ℕ) :
    (subStep p1 p2 a c b snd).2.2 = .goal k → k = 1 ∨ k = 2 := by
  simp only [subStep]
  exact collidePhase_goal_cases _ _ _ _ _ _ _

/-- The scorer reported by the sub-step loop is always slot 1 or slot 2. -/
theorem stepLoop_goal_cases (p1 p2 a c : ℚ) (n : ℕ) (b : Ball) (snd : Option Sound)
    (k : ℕ) : (stepLoop p1 p2 a c n b snd).2.2 = some k → k = 1 ∨ k = 2 := by
  induction n generalizing b snd with
  | zero => rw [stepLoop_zero]; simp
  | succ n ih =>
    rw [stepLoop_succ]
    rcases hsub : subStep p1 p2 a c b snd with ⟨b2, snd2, out⟩
    cases out with
    | cont => exact fun h => ih b2 snd2 h
    | brk => simp
    | goal m =>
      intro h
      have hm : m = k := by simpa using h
      subst hm
      exact subStep_goal_cases p1 p2 a c b snd m (by rw [hsub])

/-- The scorer reported by stepBall is always slot 1 or slot 2. -/
theorem stepBall_scored_cases (s : SimState) (k : ℕ) :
    (stepBall s).2.scored = some k → k = 1 ∨ k = 2 := by
  intro h
  exact stepLoop_goal_cases _ _ _ _ _ _ _ _ (by simpa [stepBall] using h)

/-- Bounds are preserved by one `movePaddle` application. -/
theorem movePaddle_bounds {y : ℚ} (d : String)
    (h : 0 ≤ y ∧ y ≤ CANVAS_H - PADDLE_H) :
    0 ≤ movePaddle y d ∧ movePaddle y d ≤ CANVAS_H - PADDLE_H := by
  obtain ⟨h0, h1⟩ := h
  unfold movePaddle
  split_ifs with hu hd
  · constructor
    · exact le_max_left 0 _
    · rw [max_le_iff]
      norm_num [CANVAS_H, PADDLE_H, PADDLE_SPEED] at h1 ⊢
      linarith
  · constructor
    · rw [le_min_iff]
      norm_num [CANVAS_H, PADDLE_H, PADDLE_SPEED] at h0 ⊢
      linarith
    · exact min_le_left _ _
  · exact ⟨h0, h1⟩

/-- Claim C3: stepBall decomposes the tick into
`N = max 1 ⌈speed / (PADDLE_W / 2)⌉` sub-steps (the count is at least one),
each sub-step advancing the ball by `velocity / N`, whose displacement is
at most half the paddle width. -/
theorem claim_C3_substep_decomposition (vx vy : ℚ) :
    subStepCount vx vy
      = max 1 ⌈Real.sqrt ((vx : ℝ) ^ 2 + (vy : ℝ) ^ 2) / ((PADDLE_W : ℝ) / 2)⌉₊
    ∧ 1 ≤ subStepCount vx vy
    ∧ Real.sqrt (((vx / (subStepCount vx vy : ℚ)) : ℝ) ^ 2 +
        ((vy / (subStepCount vx vy : ℚ)) : ℝ) ^ 2) ≤ (PADDLE_W : ℝ) / 2 := by
  refine ⟨?_, le_max_left _ _, ?_⟩
  · have h := ceilSqrtNat_eq_ceil_sqrt (vx ^ 2 + vy ^ 2)
    have hcast : (((vx ^ 2 + vy ^ 2 : ℚ)) : ℝ) = (vx : ℝ) ^ 2 + (vy : ℝ) ^ 2 := by
      push_cast
      ring
    have hpw : ((PADDLE_W : ℚ) : ℝ) / 2 = 13 := by norm_num [PADDLE_W]
    rw [subStepCount, h, hcast, hpw]
  · have hb := subStep_disp_sq_le vx vy
    have hpw : ((PADDLE_W : ℚ) : ℝ) / 2 = 13 := by norm_num [PADDLE_W]
    rw [hpw, show (13:ℝ) = Real.sqrt 169 by
      rw [show (169:ℝ) = 13 ^ 2 by norm_num, Real.sqrt_sq (by norm_num)]]
    apply Real.sqrt_le_sqrt
    exact_mod_cast hb

/-- Claim C2: the kernel is deterministic — the run functions are pure, so
two runs from equal starting states over equal operation sequences (inputs,
ball steps, launches with equal injected parameters, pause ticks, resets)
end in exactly equal states. -/
theorem claim_C2_kernel_determinism (s1 s2 : SimState) (l1 l2 : List KCmd)
    (hs : s1 = s2) (hl : l1 = l2) : runKernel l1 s1 = runKernel l2 s2 := by
  rw [hs, hl]

/-- Witness for claim C2 at a concrete state and operation sequence. -/
theorem claim_C2_kernel_determinism_witness :
    runKernel [KCmd.input 1 "up", KCmd.launch 1 0 1, KCmd.step, KCmd.reset,
               KCmd.pause] createState
      = runKernel [KCmd.input 1 "up", KCmd.launch 1 0 1, KCmd.step, KCmd.reset,
                   KCmd.pause] createState :=
  claim_C2_kernel_determinism _ _ _ _ rfl rfl

/-- Claim C6: starting from any state with both paddle offsets in
`[0, CANVAS_H - PADDLE_H]` (such as `createState`), every sequence of
`applyInput` calls, with any player slot and any direction, keeps both
paddle offsets in that interval. -/
theorem claim_C6_paddle_bounds (s : SimState) (l : List (ℕ × String))
    (h1 : 0 ≤ s.paddle1 ∧ s.paddle1 ≤ CANVAS_H - PADDLE_H)
    (h2 : 0 ≤ s.paddle2 ∧ s.paddle2 ≤ CANVAS_H - PADDLE_H) :
    (0 ≤ (runInputs l s).paddle1 ∧ (runInputs l s).paddle1 ≤ CANVAS_H - PADDLE_H) ∧
    (0 ≤ (runInputs l s).paddle2 ∧ (runInputs l s).paddle2 ≤ CANVAS_H - PADDLE_H) := by
  induction l generalizing s with
  | nil => exact ⟨h1, h2⟩
  | cons hd tl ih =>
    rcases hd with ⟨i, d⟩
    refine ih (applyInput s i d) ?_ ?_ <;> unfold applyInput <;> split_ifs <;> simp <;>
      first
        | exact movePaddle_bounds d h1
        | exact movePaddle_bounds d h2
        | exact h1
        | exact h2

/-- Witness for claim C6: the created state is in bounds and an input
sequence keeps it there. -/
theorem claim_C6_paddle_bounds_witness :
    (0 ≤ (runInputs [(1, "up"), (2, "down"), (1, "stop")] createState).paddle1 ∧
      (runInputs [(1, "up"), (2, "down"), (1, "stop")] createState).paddle1
        ≤ CANVAS_H - PADDLE_H) ∧
    (0 ≤ (runInputs [(1, "up"), (2, "down"), (1, "stop")] createState).paddle2 ∧
      (runInputs [(1, "up"), (2, "down"), (1, "stop")] createState).paddle2
        ≤ CANVAS_H - PADDLE_H) :=
  claim_C6_paddle_bounds createState _
    (by norm_num [createState, CANVAS_H, PADDLE_H])
    (by norm_num [createState, CANVAS_H, PADDLE_H])

/-- tickPause signals the end of a pause exactly when the countdown stood
at one. -/
theorem tickPause_ret_iff (s : SimState) :
    (tickPause s).2 = true ↔ s.pauseTicks = 1 := by
  simp only [tickPause]
  split_ifs with h1 h2 <;> simp <;> omega

/-- tickPause does not touch the ball. -/
theorem tickPause_ball (s : SimState) : (tickPause s).1.ball = s.ball := by
  simp only [tickPause]
  split_ifs <;> simp

/-- When tickPause signals the end of a pause it also clears `paused` and
leaves the countdown at zero. -/
theorem tickPause_true_effects (s : SimState) (h : (tickPause s).2 = true) :
    (tickPause s).1.paused = false ∧ (tickPause s).1.pauseTicks = 0 := by
  rw [tickPause_ret_iff] at h
  simp only [tickPause]
  split_ifs with h1 h2
  · omega
  · simp
  · omega

/-- The pause invariant holds in every reachable state. -/
theorem kreach_pauseInv (s : SimState) (h : KReach s) : PauseInv s := by
  induction h with
  | init => simp [PauseInv, createState]
  | input s i d _ ih =>
    obtain ⟨hb, _, _, _, _, hp, hpt, _⟩ := applyInput_preserves s i d
    unfold PauseInv at ih ⊢
    rw [hb, hp, hpt]
    exact ih
  | step s _ hpt ih =>
    obtain ⟨_, _, _, _, _, _, hp, hptk, _⟩ := stepBall_preserves s
    unfold PauseInv at ih ⊢
    rw [hp, hptk]
    have hpaused : s.paused = false := by
      cases hsp : s.paused with
      | false => rfl
      | true => exact absurd (ih.1 hsp).2.2.2.2 (by omega)
    refine ⟨fun hc => absurd hc (by rw [hpaused]; simp), fun _ => ih.2 hpaused⟩
  | launch s c sn dir _ hpf ih =>
    unfold PauseInv at ih ⊢
    unfold launchBall
    refine ⟨fun hc => absurd hc (by rw [hpf]; simp), fun _ => ih.2 hpf⟩
  | pauseTick s _ hpt ih =>
    unfold PauseInv at ih ⊢
    have hpaused : s.paused = true := by
      cases hsp : s.paused with
      | true => rfl
      | false => exact absurd (ih.2 hsp) (by omega)
    obtain ⟨hvx, hvy, hx, hy, _⟩ := ih.1 hpaused
    simp only [tickPause]
    split_ifs with h1 h2
    · omega
    · simp
    · constructor
      · intro _
        exact ⟨hvx, hvy, hx, hy, by simp; omega⟩
      · intro hc
        simp at hc
        rw [hpaused] at hc
        exact absurd hc (by simp)
  | reset s _ _ =>
    unfold PauseInv resetBallAfterScore SCORE_PAUSE_TICKS
    norm_num

/-- The pause countdown after `k` iterations of tickPause. -/
theorem iterPause_pt (k : ℕ) (s : SimState) (h : 0 ≤ s.pauseTicks) :
    (iterPause k s).pauseTicks = max (s.pauseTicks - k) 0 := by
  induction k generalizing s with
  | zero => simp [iterPause]; omega
  | succ k ih =>
    show (iterPause k (tickPause s).1).pauseTicks = _
    have hpt : (tickPause s).1.pauseTicks =
        if s.pauseTicks ≤ 0 then s.pauseTicks else s.pauseTicks - 1 := by
      simp only [tickPause]
      split_ifs with h1 h2 <;> simp <;> omega
    rw [ih (tickPause s).1 (by rw [hpt]; split_ifs <;> omega), hpt]
    split_ifs <;> push_cast <;> omega

/-- Claim C5: in every reachable state, while paused the ball velocity is
exactly zero and the ball sits exactly at the canvas center; `tickPause`
returns true exactly when the countdown stands at one (so exactly once per
pause period: after `resetBallAfterScore`, only the `SCORE_PAUSE_TICKS`-th
call returns true), that call also clears `paused` and zeroes the countdown,
and every call in a non-paused state returns false. -/
theorem claim_C5_pause_correctness (s : SimState) (h : KReach s) :
    (s.paused = true → s.ball.vx = 0 ∧ s.ball.vy = 0 ∧
      s.ball.x = CANVAS_W / 2 - BALL_SIZE / 2 ∧
      s.ball.y = CANVAS_H / 2 - BALL_SIZE / 2) ∧
    ((tickPause s).2 = true ↔ s.pauseTicks = 1) ∧
    (s.paused = false → (tickPause s).2 = false) ∧
    ((tickPause s).2 = true →
      (tickPause s).1.paused = false ∧ (tickPause s).1.pauseTicks = 0) ∧
    (∀ k : ℕ, (tickPause (iterPause k (resetBallAfterScore s))).2 = true ↔
      (k : ℤ) = SCORE_PAUSE_TICKS - 1) := by
  have hinv := kreach_pauseInv s h
  refine ⟨fun hp => ?_, tickPause_ret_iff s, fun hp => ?_,
          tickPause_true_effects s, fun k => ?_⟩
  · obtain ⟨hvx, hvy, hx, hy, _⟩ := hinv.1 hp
    exact ⟨hvx, hvy, hx, hy⟩
  · have h0 := hinv.2 hp
    cases hr : (tickPause s).2 with
    | false => rfl
    | true => exact absurd ((tickPause_ret_iff s).1 hr) (by omega)
  · rw [tickPause_ret_iff,
        iterPause_pt k _ (by unfold resetBallAfterScore SCORE_PAUSE_TICKS; norm_num)]
    unfold resetBallAfterScore SCORE_PAUSE_TICKS
    simp only
    omega

/-- Witness for claim C5 at the created state (with the per-period
exactness conjunct instantiated at the 120th call). -/
theorem claim_C5_pause_correctness_witness :
    (createState.paused = true → createState.ball.vx = 0 ∧ createState.ball.vy = 0 ∧
      createState.ball.x = CANVAS_W / 2 - BALL_SIZE / 2 ∧
      createState.ball.y = CANVAS_H / 2 - BALL_SIZE / 2) ∧
    ((tickPause createState).2 = true ↔ createState.pauseTicks = 1) ∧
    (createState.paused = false → (tickPause createState).2 = false) ∧
    ((tickPause createState).2 = true →
      (tickPause createState).1.paused = false ∧
      (tickPause createState).1.pauseTicks = 0) ∧
    ((tickPause (iterPause 119 (resetBallAfterScore createState))).2 = true ↔
      ((119 : ℕ) : ℤ) = SCORE_PAUSE_TICKS - 1) :=
  have h := claim_C5_pause_correctness createState KReach.init
  ⟨h.1, h.2.1, h.2.2.1, h.2.2.2.1, h.2.2.2.2 119⟩

end PongSim

namespace PongSim

theorem wallPhase_vx (snd : Option Sound) (b : Ball) :
    (wallPhase snd b).1.vx = b.vx := by
  simp only [wallPhase]
  split_ifs <;> simp

theorem collidePhase_vx_bound (p1 p2 ox oy : ℚ) (b2 : Ball) (snd2 : Option Sound)
    (h : |b2.vx| ≤ BALL_MAX_SPEED) :
    |(collidePhase p1 p2 ox oy b2 snd2).1.vx| ≤ BALL_MAX_SPEED := by
  have hnn : (0:ℚ) ≤ min (|b2.vx| + BALL_SPEED_INCREMENT) BALL_MAX_SPEED := by
    apply le_min
    · have := abs_nonneg b2.vx
      norm_num [BALL_SPEED_INCREMENT]
      linarith
    · norm_num [BALL_MAX_SPEED]
  simp only [collidePhase]
  split_ifs <;>
    simp only [abs_neg] <;>
    first
      | exact h
      | rw [abs_of_nonneg hnn] <;> exact min_le_right _ _

theorem subStep_vx_bound (p1 p2 a c : ℚ) (b : Ball) (snd : Option Sound)
    (h : |b.vx| ≤ BALL_MAX_SPEED) :
    |(subStep p1 p2 a c b snd).1.vx| ≤ BALL_MAX_SPEED := by
  simp only [subStep]
  apply collidePhase_vx_bound
  rw [wallPhase_vx]
  simpa [moveStep] using h

theorem stepLoop_vx_bound (p1 p2 a c : ℚ) (n : ℕ) (b : Ball) (snd : Option Sound)
    (h : |b.vx| ≤ BALL_MAX_SPEED) :
    |(stepLoop p1 p2 a c n b snd).1.vx| ≤ BALL_MAX_SPEED := by
  induction n generalizing b snd with
  | zero => rw [stepLoop_zero]; exact h
  | succ n ih =>
    rw [stepLoop_succ]
    rcases hsub : subStep p1 p2 a c b snd with ⟨b2, snd2, out⟩
    have hb2 : |b2.vx| ≤ BALL_MAX_SPEED := by
      have := subStep_vx_bound p1 p2 a c b snd h
      rw [hsub] at this
      exact this
    cases out with
    | cont => exact ih b2 snd2 hb2
    | brk => exact hb2
    | goal k => exact hb2

/-- stepBall preserves the horizontal-speed bound. -/
theorem stepBall_vx_bound (s : SimState) (h : |s.ball.vx| ≤ BALL_MAX_SPEED) :
    |(stepBall s).1.ball.vx| ≤ BALL_MAX_SPEED := by
  simp only [stepBall]
  exact stepLoop_vx_bound _ _ _ _ _ _ _ h

/-- Claim C10: launchBall establishes a horizontal speed of at most
`BALL_SPEED_INITIAL` (the injected cosine has magnitude at most one and the
direction is a sign), `BALL_SPEED_INITIAL` is below the cap, and stepBall
preserves the bound `|vx| ≤ BALL_MAX_SPEED`. -/
theorem claim_C10_horizontal_speed_cap (s : SimState) (c sn dir : ℚ)
    (hc : |c| ≤ 1) (hdir : |dir| = 1) :
    |(launchBall s c sn dir).ball.vx| ≤ BALL_SPEED_INITIAL ∧
    BALL_SPEED_INITIAL ≤ BALL_MAX_SPEED ∧
    (|s.ball.vx| ≤ BALL_MAX_SPEED → |(stepBall s).1.ball.vx| ≤ BALL_MAX_SPEED) := by
  refine ⟨?_, by norm_num [BALL_SPEED_INITIAL, BALL_MAX_SPEED], stepBall_vx_bound s⟩
  simp only [launchBall]
  rw [abs_mul, abs_mul, hdir, mul_one, abs_of_nonneg (by norm_num [BALL_SPEED_INITIAL] : (0:ℚ) ≤ BALL_SPEED_INITIAL)]
  calc |c| * BALL_SPEED_INITIAL ≤ 1 * BALL_SPEED_INITIAL := by
        apply mul_le_mul_of_nonneg_right hc
        norm_num [BALL_SPEED_INITIAL]
  _ = BALL_SPEED_INITIAL := one_mul _

/-- Witness for claim C10 at the created state with concrete launch
parameters. -/
theorem claim_C10_horizontal_speed_cap_witness :
    |(launchBall createState (1/2) (1/2) (-1)).ball.vx| ≤ BALL_SPEED_INITIAL ∧
    BALL_SPEED_INITIAL ≤ BALL_MAX_SPEED ∧
    (|createState.ball.vx| ≤ BALL_MAX_SPEED →
      |(stepBall createState).1.ball.vx| ≤ BALL_MAX_SPEED) :=
  claim_C10_horizontal_speed_cap createState (1/2) (1/2) (-1)
    (by rw [abs_of_nonneg] <;> norm_num) (by rw [abs_neg, abs_of_nonneg] <;> norm_num)

end PongSim

namespace PongSim

theorem applyInput_score1 (s : SimState) (i : ℕ) (d : String) :
    (applyInput s i d).score1 = s.score1 := (applyInput_preserves s i d).2.1

theorem applyInput_score2 (s : SimState) (i : ℕ) (d : String) :
    (applyInput s i d).score2 = s.score2 := (applyInput_preserves s i d).2.2.1

theorem applyInput_status (s : SimState) (i : ℕ) (d : String) :
    (applyInput s i d).status = s.status := (applyInput_preserves s i d).2.2.2.1

theorem applyInput_winner (s : SimState) (i : ℕ) (d : String) :
    (applyInput s i d).winner = s.winner := (applyInput_preserves s i d).2.2.2.2.1

theorem applyInput_pauseTicks (s : SimState) (i : ℕ) (d : String) :
    (applyInput s i d).pauseTicks = s.pauseTicks :=
  (applyInput_preserves s i d).2.2.2.2.2.2.1

theorem tickPause_score1 (s : SimState) : (tickPause s).1.score1 = s.score1 := by
  simp only [tickPause]
  split_ifs <;> simp

theorem tickPause_score2 (s : SimState) : (tickPause s).1.score2 = s.score2 := by
  simp only [tickPause]
  split_ifs <;> simp

theorem tickPause_status (s : SimState) : (tickPause s).1.status = s.status := by
  simp only [tickPause]
  split_ifs <;> simp

theorem tickPause_winner (s : SimState) : (tickPause s).1.winner = s.winner := by
  simp only [tickPause]
  split_ifs <;> simp

theorem launchBall_score1 (s : SimState) (c sn dir : ℚ) :
    (launchBall s c sn dir).score1 = s.score1 := rfl

theorem launchBall_score2 (s : SimState) (c sn dir : ℚ) :
    (launchBall s c sn dir).score2 = s.score2 := rfl

theorem launchBall_status (s : SimState) (c sn dir : ℚ) :
    (launchBall s c sn dir).status = s.status := rfl

theorem launchBall_winner (s : SimState) (c sn dir : ℚ) :
    (launchBall s c sn dir).winner = s.winner := rfl

theorem stepBall_score1 (s : SimState) : (stepBall s).1.score1 = s.score1 :=
  (stepBall_preserves s).2.2.1

theorem stepBall_score2 (s : SimState) : (stepBall s).1.score2 = s.score2 :=
  (stepBall_preserves s).2.2.2.1

theorem stepBall_status (s : SimState) : (stepBall s).1.status = s.status :=
  (stepBall_preserves s).2.2.2.2.1

theorem stepBall_winner (s : SimState) : (stepBall s).1.winner = s.winner :=
  (stepBall_preserves s).2.2.2.2.2.1

theorem resetBallAfterScore_score1 (s : SimState) :
    (resetBallAfterScore s).score1 = s.score1 := rfl

theorem resetBallAfterScore_score2 (s : SimState) :
    (resetBallAfterScore s).score2 = s.score2 := rfl

theorem resetBallAfterScore_status (s : SimState) :
    (resetBallAfterScore s).status = s.status := rfl

theorem resetBallAfterScore_winner (s : SimState) :
    (resetBallAfterScore s).winner = s.winner := rfl

end PongSim

namespace PongEngine

open PongSim

theorem C4_aux_playing (s s' : SimState)
    (m1 : s.score1 ≤ s'.score1) (m2 : s.score2 ≤ s'.score2)
    (hl1 : s'.score1 < 5) (hl2 : s'.score2 < 5)
    (est : s'.status = .playing) :
    s.score1 ≤ s'.score1 ∧ s.score2 ≤ s'.score2 ∧
    (s'.status = .finished ↔ (5 ≤ s'.score1 ∨ 5 ≤ s'.score2)) ∧
    ¬(5 ≤ s'.score1 ∧ 5 ≤ s'.score2) ∧
    (s'.status = .finished →
      (s'.score1 = 5 ∧ s'.winner = some 1) ∨
      (s'.score2 = 5 ∧ s'.winner = some 2)) := by
  rw [est]
  refine ⟨m1, m2, ⟨fun hfin => absurd hfin (by decide), fun hor => ?_⟩, by omega,
    fun hfin => absurd hfin (by decide)⟩
  exfalso
  rcases hor with h | h <;> omega

theorem C4_aux_finished1 (s s' : SimState)
    (m1 : s.score1 ≤ s'.score1) (m2 : s.score2 ≤ s'.score2)
    (he : s'.score1 = 5) (hl2 : s'.score2 < 5)
    (est : s'.status = .finished) (ew : s'.winner = some 1) :
    s.score1 ≤ s'.score1 ∧ s.score2 ≤ s'.score2 ∧
    (s'.status = .finished ↔ (5 ≤ s'.score1 ∨ 5 ≤ s'.score2)) ∧
    ¬(5 ≤ s'.score1 ∧ 5 ≤ s'.score2) ∧
    (s'.status = .finished →
      (s'.score1 = 5 ∧ s'.winner = some 1) ∨
      (s'.score2 = 5 ∧ s'.winner = some 2)) :=
  ⟨m1, m2, ⟨fun _ => Or.inl (le_of_eq he.symm), fun _ => est⟩, by omega,
    fun _ => Or.inl ⟨he, ew⟩⟩

theorem C4_aux_finished2 (s s' : SimState)
    (m1 : s.score1 ≤ s'.score1) (m2 : s.score2 ≤ s'.score2)
    (he : s'.score2 = 5) (hl1 : s'.score1 < 5)
    (est : s'.status = .finished) (ew : s'.winner = some 2) :
    s.score1 ≤ s'.score1 ∧ s.score2 ≤ s'.score2 ∧
    (s'.status = .finished ↔ (5 ≤ s'.score1 ∨ 5 ≤ s'.score2)) ∧
    ¬(5 ≤ s'.score1 ∧ 5 ≤ s'.score2) ∧
    (s'.status = .finished →
      (s'.score1 = 5 ∧ s'.winner = some 1) ∨
      (s'.score2 = 5 ∧ s'.winner = some 2)) :=
  ⟨m1, m2, ⟨fun _ => Or.inr (le_of_eq he.symm), fun _ => est⟩, by omega,
    fun _ => Or.inr ⟨he, ew⟩⟩

set_option maxHeartbeats 1000000 in
/-- Claim C4: within a match (playing status, both scores still below the
win threshold), one engine tick never decreases either score, moves the
status to finished exactly when a score has reached `WIN_SCORE` (never
later), never lets both scores reach the threshold, and on finishing
records the scorer as the winner. -/
theorem claim_C4_score_monotonicity_and_win_detection (s : SimState) (d1 d2 : String) (c sn dir : ℚ)
    (hst : s.status = .playing)
    (h1 : s.score1 < WIN_SCORE) (h2 : s.score2 < WIN_SCORE) :
    s.score1 ≤ (engineTick d1 d2 c sn dir s).score1 ∧
    s.score2 ≤ (engineTick d1 d2 c sn dir s).score2 ∧
    ((engineTick d1 d2 c sn dir s).status = .finished ↔
      (WIN_SCORE ≤ (engineTick d1 d2 c sn dir s).score1 ∨
       WIN_SCORE ≤ (engineTick d1 d2 c sn dir s).score2)) ∧
    ¬(WIN_SCORE ≤ (engineTick d1 d2 c sn dir s).score1 ∧
      WIN_SCORE ≤ (engineTick d1 d2 c sn dir s).score2) ∧
    ((engineTick d1 d2 c sn dir s).status = .finished →
      ((engineTick d1 d2 c sn dir s).score1 = WIN_SCORE ∧
        (engineTick d1 d2 c sn dir s).winner = some 1) ∨
      ((engineTick d1 d2 c sn dir s).score2 = WIN_SCORE ∧
        (engineTick d1 d2 c sn dir s).winner = some 2)) := by
  rw [show WIN_SCORE = 5 from rfl] at h1 h2 ⊢
  simp only [engineTick, show WIN_SCORE = 5 from rfl]
  rw [if_neg (by simp [hst])]
  have e1 : (applyInput (applyInput { s with sound := none } 1 d1) 2 d2).score1
      = s.score1 := by simp [applyInput_score1]
  have e2 : (applyInput (applyInput { s with sound := none } 1 d1) 2 d2).score2
      = s.score2 := by simp [applyInput_score2]
  have est : (applyInput (applyInput { s with sound := none } 1 d1) 2 d2).status
      = .playing := by simp [applyInput_status, hst]
  generalize hs2 : applyInput (applyInput { s with sound := none } 1 d1) 2 d2 = s2
  rw [hs2] at e1 e2 est
  by_cases hpt : 0 < s2.pauseTicks
  · rw [if_pos hpt]
    by_cases hr : (tickPause s2).2 = true
    · rw [if_pos hr]
      refine C4_aux_playing s _ ?_ ?_ ?_ ?_ ?_ <;>
        simp [launchBall_score1, launchBall_score2, launchBall_status,
          tickPause_score1, tickPause_score2, tickPause_status, e1, e2, est, h1, h2]
    · rw [if_neg hr]
      refine C4_aux_playing s _ ?_ ?_ ?_ ?_ ?_ <;>
        simp [tickPause_score1, tickPause_score2, tickPause_status, e1, e2, est, h1, h2]
  · rw [if_neg hpt]
    rcases hsnd : (stepBall s2).2.sound with _ | snd <;>
    · simp only [hsnd]
      rcases hsc : (stepBall s2).2.scored with _ | k
      · simp only [hsc]
        refine C4_aux_playing s _ ?_ ?_ ?_ ?_ ?_ <;>
          simp [stepBall_score1, stepBall_score2, stepBall_status, e1, e2, est, h1, h2]
      · simp only [hsc]
        rcases stepBall_scored_cases s2 k hsc with hk | hk
        · subst hk
          rw [if_neg (by norm_num)]
          by_cases hw : (5:ℕ) ≤ (stepBall s2).1.score1 + 1
          all_goals (rw [stepBall_score1, e1] at hw)
          · rw [if_pos (by simpa [stepBall_score1, e1] using hw)]
            refine C4_aux_finished1 s _ ?_ ?_ ?_ ?_ ?_ ?_
            · simp [endGame, stepBall_score1, e1]
            · simp [endGame, stepBall_score2, e2]
            · simp [endGame, stepBall_score1, e1]
              omega
            · simp [endGame, stepBall_score2, e2]
              omega
            · simp [endGame]
            · simp [endGame]
          · rw [if_neg (by simpa [stepBall_score1, e1] using hw)]
            refine C4_aux_playing s _ ?_ ?_ ?_ ?_ ?_
            · simp [resetBallAfterScore_score1, stepBall_score1, e1]
            · simp [resetBallAfterScore_score2, stepBall_score2, e2]
            · simp [resetBallAfterScore_score1, stepBall_score1, e1]
              omega
            · simp [resetBallAfterScore_score2, stepBall_score2, e2]
              omega
            · simp [resetBallAfterScore_status, stepBall_status, est]
        · subst hk
          rw [if_pos rfl]
          by_cases hw : (5:ℕ) ≤ (stepBall s2).1.score2 + 1
          all_goals (rw [stepBall_score2, e2] at hw)
          · rw [if_pos (by simpa [stepBall_score2, e2] using hw)]
            refine C4_aux_finished2 s _ ?_ ?_ ?_ ?_ ?_ ?_
            · simp [endGame, stepBall_score1, e1]
            · simp [endGame, stepBall_score2, e2]
            · simp [endGame, stepBall_score2, e2]
              omega
            · simp [endGame, stepBall_score1, e1]
              omega
            · simp [endGame]
            · simp [endGame]
          · rw [if_neg (by simpa [stepBall_score2, e2] using hw)]
            refine C4_aux_playing s _ ?_ ?_ ?_ ?_ ?_
            · simp [resetBallAfterScore_score1, stepBall_score1, e1]
            · simp [resetBallAfterScore_score2, stepBall_score2, e2]
            · simp [resetBallAfterScore_score1, stepBall_score1, e1]
              omega
            · simp [resetBallAfterScore_score2, stepBall_score2, e2]
              omega
            · simp [resetBallAfterScore_status, stepBall_status, est]

/-- Witness for claim C4 at the created state with concrete inputs. -/
theorem claim_C4_score_monotonicity_and_win_detection_witness :
    createState.score1 ≤ (engineTick "stop" "stop" 0 0 1 createState).score1 ∧
    createState.score2 ≤ (engineTick "stop" "stop" 0 0 1 createState).score2 ∧
    ((engineTick "stop" "stop" 0 0 1 createState).status = .finished ↔
      (WIN_SCORE ≤ (engineTick "stop" "stop" 0 0 1 createState).score1 ∨
       WIN_SCORE ≤ (engineTick "stop" "stop" 0 0 1 createState).score2)) ∧
    ¬(WIN_SCORE ≤ (engineTick "stop" "stop" 0 0 1 createState).score1 ∧
      WIN_SCORE ≤ (engineTick "stop" "stop" 0 0 1 createState).score2) ∧
    ((engineTick "stop" "stop" 0 0 1 createState).status = .finished →
      ((engineTick "stop" "stop" 0 0 1 createState).score1 = WIN_SCORE ∧
        (engineTick "stop" "stop" 0 0 1 createState).winner = some 1) ∨
      ((engineTick "stop" "stop" 0 0 1 createState).score2 = WIN_SCORE ∧
        (engineTick "stop" "stop" 0 0 1 createState).winner = some 2)) :=
  claim_C4_score_monotonicity_and_win_detection createState "stop" "stop" 0 0 1
    rfl (by decide) (by decide)

end PongEngine

namespace Session

set_option maxHeartbeats 1000000 in
/-- Claim C7: handleInput leaves both stored intended directions unchanged
when the direction is not one of the three legal values, when the caller
is neither of the session's players, or when the caller's pruned sliding
window has already reached `INPUT_RATE_LIMIT` entries; otherwise it stores
the direction as that player's intended direction.  In every case it is a
total function that returns the session (no error surfaced) and never
touches the simulation state (input is never applied synchronously). -/
theorem claim_C7_input_validation_rate_limit (g : Sess) (w d : String) (now : ℤ) :
    ((¬(d = "up" ∨ d = "down" ∨ d = "stop") ∨ (w ≠ g.w1 ∧ w ≠ g.w2) ∨
        (w = g.w1 ∧ INPUT_RATE_LIMIT ≤ (pruneOld now g.ts1).length) ∨
        (w ≠ g.w1 ∧ w = g.w2 ∧ INPUT_RATE_LIMIT ≤ (pruneOld now g.ts2).length)) →
      (handleInput g w d now).in1 = g.in1 ∧ (handleInput g w d now).in2 = g.in2) ∧
    ((d = "up" ∨ d = "down" ∨ d = "stop") → w = g.w1 →
        (pruneOld now g.ts1).length < INPUT_RATE_LIMIT →
      (handleInput g w d now).in1 = d ∧ (handleInput g w d now).in2 = g.in2) ∧
    ((d = "up" ∨ d = "down" ∨ d = "stop") → w ≠ g.w1 → w = g.w2 →
        (pruneOld now g.ts2).length < INPUT_RATE_LIMIT →
      (handleInput g w d now).in2 = d ∧ (handleInput g w d now).in1 = g.in1) ∧
    (handleInput g w d now).sim = g.sim := by
  simp only [handleInput]
  split_ifs with h1 h2 h3 h4 h5 <;>
    refine ⟨?_, ?_, ?_, ?_⟩ <;>
    simp_all <;>
    tauto

/-- Witness for claim C7: a valid input from player 1 is stored; an invalid
direction, a non-participant, and a rate-limited call all leave the stored
directions unchanged; the simulation state is never touched. -/
theorem claim_C7_input_validation_rate_limit_witness :
    ((handleInput ⟨"a", "b", "stop", "stop", [], [], PongSim.createState⟩
        "a" "up" 0).in1 = "up" ∧
     (handleInput ⟨"a", "b", "stop", "stop", [], [], PongSim.createState⟩
        "a" "up" 0).in2 = "stop") ∧
    ((handleInput ⟨"a", "b", "stop", "stop", [], [], PongSim.createState⟩
        "a" "sideways" 0).in1 = "stop" ∧
     (handleInput ⟨"a", "b", "stop", "stop", [], [], PongSim.createState⟩
        "a" "sideways" 0).in2 = "stop") ∧
    ((handleInput ⟨"a", "b", "stop", "stop", [], [], PongSim.createState⟩
        "z" "up" 0).in1 = "stop" ∧
     (handleInput ⟨"a", "b", "stop", "stop", [], [], PongSim.createState⟩
        "z" "up" 0).in2 = "stop") ∧
    ((handleInput ⟨"a", "b", "stop", "stop", List.replicate 30 0, [],
        PongSim.createState⟩ "a" "up" 0).in1 = "stop" ∧
     (handleInput ⟨"a", "b", "stop", "stop", List.replicate 30 0, [],
        PongSim.createState⟩ "a" "up" 0).in2 = "stop") ∧
    (handleInput ⟨"a", "b", "stop", "stop", [], [], PongSim.createState⟩
        "a" "up" 0).sim = PongSim.createState := by
  refine ⟨?_, ?_, ?_, ?_, ?_⟩
  · exact (claim_C7_input_validation_rate_limit ⟨"a", "b", "stop", "stop", [], [], PongSim.createState⟩
      "a" "up" 0).2.1 (Or.inl rfl) rfl (by decide)
  · exact (claim_C7_input_validation_rate_limit ⟨"a", "b", "stop", "stop", [], [], PongSim.createState⟩
      "a" "sideways" 0).1 (Or.inl (by decide))
  · exact (claim_C7_input_validation_rate_limit ⟨"a", "b", "stop", "stop", [], [], PongSim.createState⟩
      "z" "up" 0).1 (Or.inr (Or.inl (by decide)))
  · exact (claim_C7_input_validation_rate_limit ⟨"a", "b", "stop", "stop", List.replicate 30 0, [],
      PongSim.createState⟩ "a" "up" 0).1 (Or.inr (Or.inr (Or.inl ⟨rfl, by decide⟩)))
  · exact (claim_C7_input_validation_rate_limit ⟨"a", "b", "stop", "stop", [], [], PongSim.createState⟩
      "a" "up" 0).2.2.2

end Session

namespace Grace

/-- Claim C8: the scheduled forfeit callback checks the disconnect flag at
fire time — if the flag was cleared by a reconnect (which this theorem also
shows clears it) or the game is no longer registered, the callback leaves
the world unchanged; if the game is active and the player is still flagged
at fire time, the session finishes with the other player as winner, the
tick timer stopped, and the scores (whatever they are) untouched. -/
theorem claim_C8_disconnect_grace_forfeit (w : GameWorld) (p : ℕ)
    (hp : p = 1 ∨ p = 2) :
    (disc w p = false → graceFire w p = w) ∧
    (w.active = false → graceFire w p = w) ∧
    (disc (clearDisconnect w p) p = false) ∧
    (disc (setDisconnect w p) p = true) ∧
    (w.active = true → disc w p = true →
      (graceFire w p).status = .finished ∧
      (graceFire w p).winner = some (other p) ∧
      (graceFire w p).timerOn = false ∧
      (graceFire w p).active = false ∧
      (graceFire w p).score1 = w.score1 ∧ (graceFire w p).score2 = w.score2) := by
  rcases hp with hp | hp <;> subst hp <;>
    refine ⟨?_, ?_, ?_, ?_, fun ha hd => ?_⟩ <;>
    simp_all [graceFire, disc, clearDisconnect, setDisconnect, forfeit, other]

/-- Witness for claim C8: at a world whose player 1 reconnected (flag
cleared) the callback no-ops; at a world whose player 1 is still flagged,
it finishes the match with player 2 the winner and the score untouched. -/
theorem claim_C8_disconnect_grace_forfeit_witness :
    (disc ⟨true, false, false, true, .playing, none, 3, 1⟩ 1 = false →
      graceFire ⟨true, false, false, true, .playing, none, 3, 1⟩ 1 =
        ⟨true, false, false, true, .playing, none, 3, 1⟩) ∧
    (disc (clearDisconnect ⟨true, true, false, true, .playing, none, 3, 1⟩ 1) 1
      = false) ∧
    ((graceFire ⟨true, true, false, true, .playing, none, 3, 1⟩ 1).status
        = .finished ∧
      (graceFire ⟨true, true, false, true, .playing, none, 3, 1⟩ 1).winner
        = some (other 1) ∧
      (graceFire ⟨true, true, false, true, .playing, none, 3, 1⟩ 1).timerOn
        = false ∧
      (graceFire ⟨true, true, false, true, .playing, none, 3, 1⟩ 1).active
        = false ∧
      (graceFire ⟨true, true, false, true, .playing, none, 3, 1⟩ 1).score1
        = (⟨true, true, false, true, .playing, none, 3, 1⟩ : GameWorld).score1 ∧
      (graceFire ⟨true, true, false, true, .playing, none, 3, 1⟩ 1).score2
        = (⟨true, true, false, true, .playing, none, 3, 1⟩ : GameWorld).score2) :=
  ⟨(claim_C8_disconnect_grace_forfeit
      ⟨true, false, false, true, .playing, none, 3, 1⟩ 1 (Or.inl rfl)).1,
   (claim_C8_disconnect_grace_forfeit
      ⟨true, true, false, true, .playing, none, 3, 1⟩ 1 (Or.inl rfl)).2.2.1,
   (claim_C8_disconnect_grace_forfeit
      ⟨true, true, false, true, .playing, none, 3, 1⟩ 1 (Or.inl rfl)).2.2.2.2
      rfl rfl⟩

end Grace

namespace PongSim

theorem wallPhase_inside (snd : Option Sound) (b : Ball)
    (h1 : 0 < b.y) (h2 : b.y < CANVAS_H - BALL_SIZE) :
    wallPhase snd b = (b, snd) := by
  simp only [wallPhase]
  rw [if_neg (show ¬ b.y ≤ 0 by linarith)]
  rw [if_neg (show ¬ ((b, snd) : Ball × Option Sound).1.y ≥ CANVAS_H - BALL_SIZE by
    simp only; linarith)]

theorem collidePhase_left_swept (p1 p2 ox oy : ℚ) (b2 : Ball) (snd2 : Option Sound)
    (hvx : b2.vx < 0) (h1 : ox ≥ P1_RIGHT) (h2 : b2.x < P1_RIGHT)
    (hspan1 : (oy + (b2.y - oy) * ((ox - P1_RIGHT) / (ox - b2.x))) + BALL_SIZE ≥ p1)
    (hspan2 : (oy + (b2.y - oy) * ((ox - P1_RIGHT) / (ox - b2.x))) ≤ p1 + PADDLE_H) :
    collidePhase p1 p2 ox oy b2 snd2 =
      (⟨P1_RIGHT, oy + (b2.y - oy) * ((ox - P1_RIGHT) / (ox - b2.x)),
        min (|b2.vx| + BALL_SPEED_INCREMENT) BALL_MAX_SPEED,
        ((oy + (b2.y - oy) * ((ox - P1_RIGHT) / (ox - b2.x)) + BALL_SIZE / 2 - p1)
            / PADDLE_H - 1/2)
          * min (|b2.vx| + BALL_SPEED_INCREMENT) BALL_MAX_SPEED * 1.5⟩,
        some .paddle, .brk) := by
  simp only [collidePhase]
  rw [if_pos ⟨hvx, h1, h2, hspan1, hspan2⟩]

theorem collidePhase_right_swept (p1 p2 ox oy : ℚ) (b2 : Ball) (snd2 : Option Sound)
    (hvx : 0 < b2.vx) (h1 : ox + BALL_SIZE ≤ P2_LEFT) (h2 : P2_LEFT < b2.x + BALL_SIZE)
    (hspan1 : (oy + (b2.y - oy) *
        ((P2_LEFT - (ox + BALL_SIZE)) / ((b2.x + BALL_SIZE) - (ox + BALL_SIZE))))
        + BALL_SIZE ≥ p2)
    (hspan2 : (oy + (b2.y - oy) *
        ((P2_LEFT - (ox + BALL_SIZE)) / ((b2.x + BALL_SIZE) - (ox + BALL_SIZE))))
        ≤ p2 + PADDLE_H) :
    collidePhase p1 p2 ox oy b2 snd2 =
      (⟨P2_LEFT - BALL_SIZE,
        oy + (b2.y - oy) *
          ((P2_LEFT - (ox + BALL_SIZE)) / ((b2.x + BALL_SIZE) - (ox + BALL_SIZE))),
        -min (|b2.vx| + BALL_SPEED_INCREMENT) BALL_MAX_SPEED,
        ((oy + (b2.y - oy) *
            ((P2_LEFT - (ox + BALL_SIZE)) / ((b2.x + BALL_SIZE) - (ox + BALL_SIZE)))
            + BALL_SIZE / 2 - p2) / PADDLE_H - 1/2)
          * min (|b2.vx| + BALL_SPEED_INCREMENT) BALL_MAX_SPEED * 1.5⟩,
        some .paddle, .brk) := by
  simp only [collidePhase]
  rw [if_neg (by rintro ⟨h, -⟩; linarith),
      if_neg (by rintro ⟨h, -⟩; linarith),
      if_pos ⟨hvx, h1, h2, hspan1, hspan2⟩]

set_option maxHeartbeats 1000000 in
/-- Claim C9: when the swept test of stepBall detects within a sub-step
that the ball's leading edge crossed a paddle's near edge (with no wall
contact in that sub-step) and the interpolated crossing `hitY` overlaps the
paddle's span, the result of the whole stepBall call is exactly the hit
response of that first sub-step: speed raised by the fixed increment capped
at `BALL_MAX_SPEED`, horizontal direction reversed, ball flush against the
paddle edge at the interpolated `y`, vertical velocity set from the hit
offset scaled by the new speed, the `paddle` sound reported, no score, and
no further sub-steps processed (the result is the one-sub-step state even
when the sub-step count exceeds one). -/
theorem claim_C9_paddle_hit_postcondition :
    (∀ (s : SimState) (x1 y1 tL hitY spd : ℚ),
      x1 = s.ball.x + s.ball.vx / (subStepCount s.ball.vx s.ball.vy : ℚ) →
      y1 = s.ball.y + s.ball.vy / (subStepCount s.ball.vx s.ball.vy : ℚ) →
      0 < y1 → y1 < CANVAS_H - BALL_SIZE →
      s.ball.vx < 0 → s.ball.x ≥ P1_RIGHT → x1 < P1_RIGHT →
      tL = (s.ball.x - P1_RIGHT) / (s.ball.x - x1) →
      hitY = s.ball.y + (y1 - s.ball.y) * tL →
      hitY + BALL_SIZE ≥ s.paddle1 → hitY ≤ s.paddle1 + PADDLE_H →
      spd = min (|s.ball.vx| + BALL_SPEED_INCREMENT) BALL_MAX_SPEED →
      stepBall s = ({ s with ball := ⟨P1_RIGHT, hitY, spd,
        ((hitY + BALL_SIZE / 2 - s.paddle1) / PADDLE_H - 1/2) * spd * 1.5⟩ },
        ⟨none, some .paddle⟩)) ∧
    (∀ (s : SimState) (x1 y1 tR hitY spd : ℚ),
      x1 = s.ball.x + s.ball.vx / (subStepCount s.ball.vx s.ball.vy : ℚ) →
      y1 = s.ball.y + s.ball.vy / (subStepCount s.ball.vx s.ball.vy : ℚ) →
      0 < y1 → y1 < CANVAS_H - BALL_SIZE →
      0 < s.ball.vx → s.ball.x + BALL_SIZE ≤ P2_LEFT → P2_LEFT < x1 + BALL_SIZE →
      tR = (P2_LEFT - (s.ball.x + BALL_SIZE)) / ((x1 + BALL_SIZE) - (s.ball.x + BALL_SIZE)) →
      hitY = s.ball.y + (y1 - s.ball.y) * tR →
      hitY + BALL_SIZE ≥ s.paddle2 → hitY ≤ s.paddle2 + PADDLE_H →
      spd = min (|s.ball.vx| + BALL_SPEED_INCREMENT) BALL_MAX_SPEED →
      stepBall s = ({ s with ball := ⟨P2_LEFT - BALL_SIZE, hitY, -spd,
        ((hitY + BALL_SIZE / 2 - s.paddle2) / PADDLE_H - 1/2) * spd * 1.5⟩ },
        ⟨none, some .paddle⟩)) := by
  constructor
  · intro s x1 y1 tL hitY spd hx1 hy1 hy1pos hy1lt hvx hox hx1lt htL hhit hsp1 hsp2 hspd
    obtain ⟨m, hm⟩ : ∃ m, subStepCount s.ball.vx s.ball.vy = m + 1 :=
      ⟨subStepCount s.ball.vx s.ball.vy - 1, by
        have := subStepCount_pos s.ball.vx s.ball.vy
        omega⟩
    subst hx1 hy1 htL hhit hspd
    rw [hm] at hy1pos hy1lt hx1lt hsp1 hsp2 ⊢
    simp only [stepBall, hm]
    rw [stepLoop_succ]
    have hsub : subStep s.paddle1 s.paddle2 (s.ball.vx / (((m + 1 : ℕ)) : ℚ))
        (s.ball.vy / (((m + 1 : ℕ)) : ℚ)) s.ball none =
        (⟨P1_RIGHT,
          s.ball.y + (s.ball.y + s.ball.vy / (((m + 1 : ℕ)) : ℚ) - s.ball.y) *
            ((s.ball.x - P1_RIGHT) /
              (s.ball.x - (s.ball.x + s.ball.vx / (((m + 1 : ℕ)) : ℚ)))),
          min (|s.ball.vx| + BALL_SPEED_INCREMENT) BALL_MAX_SPEED,
          ((s.ball.y + (s.ball.y + s.ball.vy / (((m + 1 : ℕ)) : ℚ) - s.ball.y) *
            ((s.ball.x - P1_RIGHT) /
              (s.ball.x - (s.ball.x + s.ball.vx / (((m + 1 : ℕ)) : ℚ))))
            + BALL_SIZE / 2 - s.paddle1) / PADDLE_H - 1/2) *
            min (|s.ball.vx| + BALL_SPEED_INCREMENT) BALL_MAX_SPEED * 1.5⟩,
          some .paddle, .brk) := by
      simp only [subStep]
      rw [wallPhase_inside none (moveStep (s.ball.vx / (((m + 1 : ℕ)) : ℚ))
            (s.ball.vy / (((m + 1 : ℕ)) : ℚ)) s.ball)
          (by simpa [moveStep] using hy1pos)
          (by simpa [moveStep] using hy1lt)]
      rw [collidePhase_left_swept s.paddle1 s.paddle2 s.ball.x s.ball.y _ none
          (by simpa [moveStep] using hvx)
          hox
          (by simpa [moveStep] using hx1lt)
          (by simpa [moveStep] using hsp1)
          (by simpa [moveStep] using hsp2)]
      simp [moveStep]
    rw [hsub]
  · intro s x1 y1 tR hitY spd hx1 hy1 hy1pos hy1lt hvx hox hx1lt htR hhit hsp1 hsp2 hspd
    obtain ⟨m, hm⟩ : ∃ m, subStepCount s.ball.vx s.ball.vy = m + 1 :=
      ⟨subStepCount s.ball.vx s.ball.vy - 1, by
        have := subStepCount_pos s.ball.vx s.ball.vy
        omega⟩
    subst hx1 hy1 htR hhit hspd
    rw [hm] at hy1pos hy1lt hx1lt hsp1 hsp2 ⊢
    simp only [stepBall, hm]
    rw [stepLoop_succ]
    have hsub : subStep s.paddle1 s.paddle2 (s.ball.vx / (((m + 1 : ℕ)) : ℚ))
        (s.ball.vy / (((m + 1 : ℕ)) : ℚ)) s.ball none =
        (⟨P2_LEFT - BALL_SIZE,
          s.ball.y + (s.ball.y + s.ball.vy / (((m + 1 : ℕ)) : ℚ) - s.ball.y) *
            ((P2_LEFT - (s.ball.x + BALL_SIZE)) /
              ((s.ball.x + s.ball.vx / (((m + 1 : ℕ)) : ℚ) + BALL_SIZE) -
                (s.ball.x + BALL_SIZE))),
          -min (|s.ball.vx| + BALL_SPEED_INCREMENT) BALL_MAX_SPEED,
          ((s.ball.y + (s.ball.y + s.ball.vy / (((m + 1 : ℕ)) : ℚ) - s.ball.y) *
            ((P2_LEFT - (s.ball.x + BALL_SIZE)) /
              ((s.ball.x + s.ball.vx / (((m + 1 : ℕ)) : ℚ) + BALL_SIZE) -
                (s.ball.x + BALL_SIZE)))
            + BALL_SIZE / 2 - s.paddle2) / PADDLE_H - 1/2) *
            min (|s.ball.vx| + BALL_SPEED_INCREMENT) BALL_MAX_SPEED * 1.5⟩,
          some .paddle, .brk) := by
      simp only [subStep]
      rw [wallPhase_inside none (moveStep (s.ball.vx / (((m + 1 : ℕ)) : ℚ))
            (s.ball.vy / (((m + 1 : ℕ)) : ℚ)) s.ball)
          (by simpa [moveStep] using hy1pos)
          (by simpa [moveStep] using hy1lt)]
      rw [collidePhase_right_swept s.paddle1 s.paddle2 s.ball.x s.ball.y _ none
          (by simpa [moveStep] using hvx)
          hox
          (by simpa [moveStep] using hx1lt)
          (by simpa [moveStep] using hsp1)
          (by simpa [moveStep] using hsp2)]
      simp [moveStep]
    rw [hsub]

set_option maxHeartbeats 1000000 in
/-- Witness for claim C9: concrete left-paddle and right-paddle swept hits
with their exact post-hit states. -/
theorem claim_C9_paddle_hit_postcondition_witness :
    stepBall { createState with ball := ⟨40, 300, -8, 0⟩ } =
      ({ createState with ball := ⟨36, 300, 33/4, 9/10⟩ }, ⟨none, some .paddle⟩) ∧
    stepBall { createState with ball := ⟨740, 300, 10, 0⟩ } =
      ({ createState with ball := ⟨748, 300, -41/4, 123/110⟩ }, ⟨none, some .paddle⟩) := by
  have hn1 : subStepCount (-8 : ℚ) 0 = 1 := subStepCount_eq_one (by norm_num)
  have hn2 : subStepCount (10 : ℚ) 0 = 1 := subStepCount_eq_one (by norm_num)
  constructor
  · rw [claim_C9_paddle_hit_postcondition.1 { createState with ball := ⟨40, 300, -8, 0⟩ }
      32 300 (1/2) 300 (33/4)
      (by norm_num [hn1])
      (by norm_num [hn1])
      (by norm_num)
      (by norm_num [CANVAS_H, BALL_SIZE])
      (by norm_num)
      (by norm_num [P1_RIGHT, P1_X, PADDLE_W])
      (by norm_num [P1_RIGHT, P1_X, PADDLE_W])
      (by norm_num [P1_RIGHT, P1_X, PADDLE_W])
      (by norm_num)
      (by norm_num [createState, CANVAS_H, PADDLE_H, BALL_SIZE])
      (by norm_num [createState, CANVAS_H, PADDLE_H])
      (by rw [abs_of_nonpos (by norm_num)]
          norm_num [BALL_SPEED_INCREMENT, BALL_MAX_SPEED, min_def])]
    norm_num [createState, P1_RIGHT, P1_X, PADDLE_W, PADDLE_H, BALL_SIZE, CANVAS_H]
  · rw [claim_C9_paddle_hit_postcondition.2 { createState with ball := ⟨740, 300, 10, 0⟩ }
      750 300 (4/5) 300 (41/4)
      (by norm_num [hn2])
      (by norm_num [hn2])
      (by norm_num)
      (by norm_num [CANVAS_H, BALL_SIZE])
      (by norm_num)
      (by norm_num [P2_LEFT, CANVAS_W, PADDLE_W, BALL_SIZE])
      (by norm_num [P2_LEFT, CANVAS_W, PADDLE_W, BALL_SIZE])
      (by norm_num [P2_LEFT, CANVAS_W, PADDLE_W, BALL_SIZE])
      (by norm_num)
      (by norm_num [createState, CANVAS_H, PADDLE_H, BALL_SIZE])
      (by norm_num [createState, CANVAS_H, PADDLE_H])
      (by rw [abs_of_nonneg (by norm_num)]
          norm_num [BALL_SPEED_INCREMENT, BALL_MAX_SPEED, min_def])]
    norm_num [createState, P2_LEFT, CANVAS_W, PADDLE_W, PADDLE_H, BALL_SIZE, CANVAS_H]

end PongSim

namespace PongSim

theorem collidePhase_nomiss (p1 p2 ox oy : ℚ) (b2 : Ball) (snd2 : Option Sound)
    (ha : P1_RIGHT < b2.x) (hb : b2.x + BALL_SIZE < P2_LEFT) :
    collidePhase p1 p2 ox oy b2 snd2 = (b2, snd2, .cont) := by
  have c1 : P1_RIGHT = 36 := by norm_num [P1_RIGHT, P1_X, PADDLE_W]
  have c2 : P2_LEFT = 764 := by norm_num [P2_LEFT, CANVAS_W, PADDLE_W]
  have c3 : BALL_SIZE = 16 := by norm_num [BALL_SIZE]
  have c4 : CANVAS_W = 800 := by norm_num [CANVAS_W]
  simp only [collidePhase]
  rw [if_neg (by rintro ⟨-, -, hc, -⟩; linarith),
      if_neg (by rintro ⟨-, hc, -⟩; linarith),
      if_neg (by rintro ⟨-, -, hc, -⟩; linarith),
      if_neg (by rintro ⟨-, hc, -⟩; linarith),
      if_neg (by intro hc; rw [c1] at ha; rw [c3] at hc; linarith),
      if_neg (by intro hc; rw [c2] at hb; rw [c3] at hb; rw [c4] at hc; linarith)]

end PongSim

namespace Legacy

open PongSim

theorem legacyWallPhase_inside (snd : Option Sound) (b : Ball)
    (h1 : 0 < b.y) (h2 : b.y < CANVAS_H - BALL_SIZE) :
    legacyWallPhase snd b = (b, snd) := by
  simp only [legacyWallPhase]
  rw [if_neg (show ¬ b.y ≤ 0 by linarith)]
  rw [if_neg (show ¬ ((b, snd) : Ball × Option Sound).1.y ≥ CANVAS_H - BALL_SIZE by
    simp only; linarith)]

theorem legacyLeft_skip (p1 ox oy : ℚ) (b : Ball) (snd : Option Sound)
    (h : P1_RIGHT < b.x) : legacyLeft p1 ox oy b snd = (b, snd) := by
  simp only [legacyLeft]
  split_ifs with hv hA hB hC
  · exact absurd hA.1 (by linarith)
  · rfl
  · exact absurd hC.1 (by linarith)
  · rfl
  · rfl

theorem legacyRight_skip (p2 ox oy : ℚ) (b : Ball) (snd : Option Sound)
    (h : b.x + BALL_SIZE < P2_LEFT) : legacyRight p2 ox oy b snd = (b, snd) := by
  simp only [legacyRight]
  split_ifs with hv hA hB hC
  · exact absurd hA.1 (by linarith)
  · rfl
  · exact absurd hC.1 (by linarith)
  · rfl
  · rfl

theorem legacyGoal_mid (b : Ball) (snd : Option Sound)
    (h1 : 0 < b.x + BALL_SIZE) (h2 : b.x ≤ CANVAS_W) :
    legacyGoal b snd = (b, none, snd) := by
  simp only [legacyGoal]
  rw [if_neg (by linarith), if_neg (by linarith)]

set_option maxHeartbeats 1000000 in
/-- Counterexample for claim C1: the legacy server engine's ball update is
NOT the kernel's stepBall.  On the state with ball `(400, 2)` moving
`(4, -4)` (paddles centered), the kernel's wall bounce reflects the
overshoot (`y = 2`) while the legacy engine clamps to the wall (`y = 0`),
so one tick yields different ball positions; the legacy engine's
`BALL_SPEED_INITIAL` (6) and `SCORE_PAUSE_TICKS` (90) also differ from the
kernel's (4 and 120). -/
theorem claim_C1_server_kernel_counterexample :
    (legacyBallStep 245 245 ⟨400, 2, 4, -4⟩).1
      ≠ (stepBall { createState with ball := ⟨400, 2, 4, -4⟩ }).1.ball ∧
    LEGACY_BALL_SPEED_INITIAL ≠ BALL_SPEED_INITIAL ∧
    LEGACY_SCORE_PAUSE_TICKS ≠ SCORE_PAUSE_TICKS := by
  refine ⟨?_, by norm_num [LEGACY_BALL_SPEED_INITIAL, BALL_SPEED_INITIAL],
    by norm_num [LEGACY_SCORE_PAUSE_TICKS, SCORE_PAUSE_TICKS]⟩
  have hL : (legacyBallStep 245 245 ⟨400, 2, 4, -4⟩).1 = ⟨404, 0, 4, 4⟩ := by
    norm_num [legacyBallStep, legacyWallPhase, legacyLeft, legacyRight, legacyGoal,
      P1_RIGHT, P1_X, P2_LEFT, P2_RIGHT, CANVAS_W, CANVAS_H, PADDLE_W, PADDLE_H,
      BALL_SIZE, BALL_SPEED_INCREMENT, BALL_MAX_SPEED, min_def, abs]
  have hn : subStepCount (4 : ℚ) (-4) = 1 := subStepCount_eq_one (by norm_num)
  have hsub : subStep (CANVAS_H / 2 - PADDLE_H / 2) (CANVAS_H / 2 - PADDLE_H / 2)
      (4 : ℚ) (-4) ⟨400, 2, 4, -4⟩ none
      = (⟨404, 2, 4, 4⟩, some .wall, .cont) := by
    norm_num [subStep, moveStep, wallPhase, collidePhase, P1_RIGHT, P1_X, P2_LEFT,
      P2_RIGHT, CANVAS_W, CANVAS_H, PADDLE_W, PADDLE_H, BALL_SIZE,
      BALL_SPEED_INCREMENT, BALL_MAX_SPEED, min_def, abs]
  have hK : (stepBall { createState with ball := ⟨400, 2, 4, -4⟩ }).1.ball
      = ⟨404, 2, 4, 4⟩ := by
    simp only [stepBall, createState, hn]
    rw [show (1:ℕ) = 0 + 1 from rfl, stepLoop_succ]
    norm_num [hsub, stepLoop_zero]
  rw [hL, hK]
  simp

set_option maxHeartbeats 1000000 in
/-- Amended claim C1: the legacy server engine's single-step ball update
agrees exactly with the kernel's stepBall on interaction-free ticks — for
every state whose tick is a single sub-step that touches no wall, no
paddle, and no goal line, both produce the plain move with no score and no
sound — but not in general (see the counterexample: wall bounces, the
sub-step decomposition, and the launch/pause constants differ).  The
PongSim-based engine needs no such restriction since its tick calls the
kernel's stepBall itself (its embedding `engineTick` is defined through
`stepBall`). -/
theorem claim_C1_engine_kernel_agreement (s : SimState)
    (h1 : P1_RIGHT < s.ball.x + s.ball.vx)
    (h2 : s.ball.x + s.ball.vx + BALL_SIZE < P2_LEFT)
    (h3 : 0 < s.ball.y + s.ball.vy)
    (h4 : s.ball.y + s.ball.vy < CANVAS_H - BALL_SIZE)
    (h5 : s.ball.vx ^ 2 + s.ball.vy ^ 2 ≤ 169) :
    legacyBallStep s.paddle1 s.paddle2 s.ball
      = ((stepBall s).1.ball, (stepBall s).2.scored, (stepBall s).2.sound) ∧
    (stepBall s).1 = { s with ball := ⟨s.ball.x + s.ball.vx,
      s.ball.y + s.ball.vy, s.ball.vx, s.ball.vy⟩ } ∧
    (stepBall s).2 = ⟨none, none⟩ := by
  have hn := subStepCount_eq_one h5
  have c36 : P1_RIGHT = 36 := by norm_num [P1_RIGHT, P1_X, PADDLE_W]
  have c764 : P2_LEFT = 764 := by norm_num [P2_LEFT, CANVAS_W, PADDLE_W]
  have c16 : BALL_SIZE = 16 := by norm_num [BALL_SIZE]
  have c800 : CANVAS_W = 800 := by norm_num [CANVAS_W]
  have hstep : stepBall s = ({ s with ball := ⟨s.ball.x + s.ball.vx,
      s.ball.y + s.ball.vy, s.ball.vx, s.ball.vy⟩ }, ⟨none, none⟩) := by
    simp only [stepBall, hn, Nat.cast_one, div_one]
    rw [stepLoop_succ]
    have hsub : subStep s.paddle1 s.paddle2 s.ball.vx s.ball.vy s.ball none
        = (⟨s.ball.x + s.ball.vx, s.ball.y + s.ball.vy, s.ball.vx, s.ball.vy⟩,
           none, .cont) := by
      simp only [subStep]
      rw [wallPhase_inside none _ (by simpa [moveStep] using h3)
            (by simpa [moveStep] using h4)]
      rw [collidePhase_nomiss s.paddle1 s.paddle2 s.ball.x s.ball.y _ none
            (by simpa [moveStep] using h1) (by simpa [moveStep] using h2)]
      simp [moveStep]
    simp only [hsub, stepLoop_zero]
  have hleg : legacyBallStep s.paddle1 s.paddle2 s.ball
      = (⟨s.ball.x + s.ball.vx, s.ball.y + s.ball.vy, s.ball.vx, s.ball.vy⟩,
         none, none) := by
    simp only [legacyBallStep]
    rw [legacyWallPhase_inside none _ (by simpa using h3) (by simpa using h4)]
    rw [legacyLeft_skip s.paddle1 s.ball.x s.ball.y _ none (by simpa using h1)]
    rw [legacyRight_skip s.paddle2 s.ball.x s.ball.y _ none (by simpa using h2)]
    rw [legacyGoal_mid _ none
        (by simp only; rw [c36] at h1; rw [c16]; linarith)
        (by simp only; rw [c764] at h2; rw [c16] at h2; rw [c800]; linarith)]
  rw [hstep, hleg]
  exact ⟨rfl, rfl, rfl⟩

/-- Witness for the amended C1 at a concrete interaction-free state. -/
theorem claim_C1_engine_kernel_agreement_witness :
    legacyBallStep ({ createState with ball := ⟨400, 300, 5, 3⟩ }).paddle1
        ({ createState with ball := ⟨400, 300, 5, 3⟩ }).paddle2
        ({ createState with ball := ⟨400, 300, 5, 3⟩ }).ball
      = ((stepBall { createState with ball := ⟨400, 300, 5, 3⟩ }).1.ball,
         (stepBall { createState with ball := ⟨400, 300, 5, 3⟩ }).2.scored,
         (stepBall { createState with ball := ⟨400, 300, 5, 3⟩ }).2.sound) ∧
    (stepBall { createState with ball := ⟨400, 300, 5, 3⟩ }).1
      = { { createState with ball := ⟨400, 300, 5, 3⟩ } with
          ball := ⟨({ createState with ball := ⟨400, 300, 5, 3⟩ }).ball.x +
              ({ createState with ball := ⟨400, 300, 5, 3⟩ }).ball.vx,
            ({ createState with ball := ⟨400, 300, 5, 3⟩ }).ball.y +
              ({ createState with ball := ⟨400, 300, 5, 3⟩ }).ball.vy,
            ({ createState with ball := ⟨400, 300, 5, 3⟩ }).ball.vx,
            ({ createState with ball := ⟨400, 300, 5, 3⟩ }).ball.vy⟩ } ∧
    (stepBall { createState with ball := ⟨400, 300, 5, 3⟩ }).2 = ⟨none, none⟩ :=
  claim_C1_engine_kernel_agreement { createState with ball := ⟨400, 300, 5, 3⟩ }
    (by norm_num [P1_RIGHT, P1_X, PADDLE_W])
    (by norm_num [P2_LEFT, CANVAS_W, PADDLE_W, BALL_SIZE])
    (by norm_num)
    (by norm_num [CANVAS_H, BALL_SIZE])
    (by norm_num)

end Legacy
